import Mathlib

/-!
Verification development for the FakeNews monitoring frontend and its
contradiction-analysis pipeline.  The client definitions below are shallow
embeddings of the React frontend sources (WebSocketContext.jsx,
Analysis.jsx, api.js, ContradictionBadge.jsx); the analyzer/gateway part of
the pipeline is modelled from the design document, as noted on each of
those definitions.
-/

/-! ## Client data model (frontend/src/context/WebSocketContext.jsx) -/

/-- An incoming websocket JSON message, after parsing.  The source reads
fields `type`, `level`, `message`, `headline` and `company` from the parsed
object (absent string fields are the empty string); the payload may also
carry an `id` field (`none` when absent), which the `...data` spread in
`handleAlert` copies over the `Date.now()` default. -/
structure WsMessage where
  id : Option Nat
  type : String
  level : String
  message : String
  headline : String
  company : String
  deriving Repr, DecidableEq

/-- A client-side alert entry as built by `handleAlert`:
`{id: Date.now(), ...data, timestamp: new Date().toISOString()}`.
Both `id` and `timestamp` come from the same wall clock instant `now`
(milliseconds). -/
structure Alert where
  id : Nat
  type : String
  level : String
  message : String
  timestamp : Nat
  deriving Repr, DecidableEq

/-- The WebSocketProvider state: the `socket` reference (an abstract handle),
the `isConnected` flag and the `alerts` list. -/
structure ClientState where
  socket : Option Nat
  isConnected : Bool
  alerts : List Alert
  deriving Repr, DecidableEq

/-- Observable side effects of the handlers: toast notifications and console
logging. -/
inductive Notification where
  | toastError (msg : String)
  | toastWarn (msg : String)
  | toastSuccess (msg : String)
  | toastInfo (msg : String)
  | logUnknown (msgType : String)
  | logParseError
  deriving Repr, DecidableEq

/-- The alert object `handleAlert` constructs at clock instant `now` from
message `data`: `{id: Date.now(), ...data, timestamp: ...}`.  The spread
comes after the `id` initializer, so a payload `id` field overrides
`Date.now()`; `timestamp` comes after the spread and always wins. -/
def mkAlert (now : Nat) (data : WsMessage) : Alert :=
  { id :=
      match data.id with
      | some i => i
      | none => now
    type := data.type
    level := data.level
    message := data.message
    timestamp := now }

/-- The alerts-list update inside `handleAlert`:
`setAlerts(prev => [newAlert, ...prev.slice(0, 49)])`. -/
def alertsPush (now : Nat) (data : WsMessage) (prev : List Alert) : List Alert :=
  mkAlert now data :: prev.take 49

/-- `handleAlert` from WebSocketContext.jsx: prepends the new alert (keeping
at most the first 49 previous entries) and fires a toast whose kind depends
on `data.level`. -/
def handleAlert (now : Nat) (data : WsMessage) (s : ClientState) :
    ClientState × List Notification :=
  let alertMessage := "🚨 " ++ data.level ++ " Alert: " ++ data.message
  ({ s with alerts := alertsPush now data s.alerts },
   if data.level = "HIGH" then [Notification.toastError alertMessage]
   else if data.level = "MEDIUM" then [Notification.toastWarn alertMessage]
   else [Notification.toastSuccess alertMessage])

/-- `handleNewsUpdate`: a toast only, no state change. -/
def handleNewsUpdate (data : WsMessage) (s : ClientState) :
    ClientState × List Notification :=
  (s, [Notification.toastInfo ("📰 Breaking: " ++ data.headline)])

/-- `handleAnalysisComplete`: a success toast only, no state change. -/
def handleAnalysisComplete (data : WsMessage) (s : ClientState) :
    ClientState × List Notification :=
  (s, [Notification.toastSuccess ("✅ Analysis complete for " ++ data.company)])

/-- `handleWebSocketMessage`: the `switch (data.type)` dispatcher.  Only the
`alert` branch touches client state; the default branch logs the unknown
type. -/
def handleWebSocketMessage (now : Nat) (data : WsMessage) (s : ClientState) :
    ClientState × List Notification :=
  if data.type = "alert" then handleAlert now data s
  else if data.type = "news_update" then handleNewsUpdate data s
  else if data.type = "analysis_complete" then handleAnalysisComplete data s
  else (s, [Notification.logUnknown data.type])

/-- `ws.onmessage`: `JSON.parse` inside try/catch, modelled by a fallible
`parseFn`; a parse failure is caught and logged, leaving the state alone. -/
def onmessage (parseFn : String → Option WsMessage) (now : Nat) (raw : String)
    (s : ClientState) : ClientState × List Notification :=
  match parseFn raw with
  | some data => handleWebSocketMessage now data s
  | none => (s, [Notification.logParseError])

/-- `removeAlert`: `setAlerts(prev => prev.filter(alert => alert.id !== alertId))`. -/
def removeAlert (alertId : Nat) (prev : List Alert) : List Alert :=
  prev.filter (fun alert => alert.id != alertId)

/-- `clearAlerts`: `setAlerts([])`. -/
def clearAlerts (_prev : List Alert) : List Alert := []

/-- The delay in milliseconds that `connect` schedules before reconnection
attempt number `failedAttempts + 1`: both the `ws.onclose` handler and the
catch block call `setTimeout(connect, 3000)` with the literal 3000,
independent of how many consecutive attempts have already failed. -/
def reconnectDelayMs (_failedAttempts : Nat) : Nat := 3000

/-- Folding a sequence of received alert events (clock instant paired with
message data) through the `handleAlert` list update, starting from the
initial `useState([])` alerts list. -/
def alertsAfter (events : List (Nat × WsMessage)) : List Alert :=
  events.foldl (fun prev e => alertsPush e.1 e.2 prev) []

/-! ## Analysis page (frontend/src/pages/Analysis.jsx, frontend/src/services/api.js) -/

/-- The JS `String.prototype.trim`: strip leading and trailing whitespace. -/
def jsTrim (s : String) : String :=
  ⟨((s.data.dropWhile Char.isWhitespace).reverse.dropWhile Char.isWhitespace).reverse⟩

/-- The JS `String.prototype.toUpperCase` on the alphabetic range. -/
def jsToUpper (s : String) : String :=
  ⟨s.data.map Char.toUpper⟩

/-- The payload `handleAnalysis` hands to `analysisMutation.mutate`:
`{company: selectedCompany, query: query.trim()}`. -/
structure AnalyzeRequest where
  company : String
  query : String
  deriving Repr, DecidableEq

/-- An HTTP request issued through the axios instance of api.js. -/
structure ApiCall where
  method : String
  url : String
  body : AnalyzeRequest
  deriving Repr, DecidableEq

/-- `apiService.analyzeCompany`: `(analysisData) => api.post('/analyze', analysisData)`. -/
def analyzeCompany (analysisData : AnalyzeRequest) : ApiCall :=
  { method := "post", url := "/analyze", body := analysisData }

/-- The Analysis component state the submit flow depends on: the two form
fields and the `analysisMutation.isPending` flag react-query keeps while the
mutation runs. -/
structure AnalysisUIState where
  selectedCompany : String
  query : String
  pending : Bool
  deriving Repr, DecidableEq

/-- The events the Analysis form reacts to: a form submission, the mutation
settling (success or error), and edits of the two controlled inputs. -/
inductive UIEvent where
  | submit
  | complete
  | selectCompany (c : String)
  | setQuery (q : String)
  deriving Repr, DecidableEq

/-- The `disabled` attribute of the Run Analysis submit button:
`disabled={!selectedCompany || analysisMutation.isPending}`. -/
def buttonDisabled (s : AnalysisUIState) : Bool :=
  s.selectedCompany = "" || s.pending

/-- `handleAnalysis`: rejects an empty company selection with an error toast
and no request; otherwise issues the mutation (react-query turns `isPending`
on) carrying the selected company and the trimmed query. -/
def handleAnalysis (s : AnalysisUIState) :
    AnalysisUIState × Option AnalyzeRequest × List Notification :=
  if s.selectedCompany = "" then
    (s, none, [Notification.toastError "Please select a company"])
  else
    ({ s with pending := true },
     some { company := s.selectedCompany, query := jsTrim s.query }, [])

/-- One step of the Analysis form: the DOM delivers a submit only through the
enabled submit button (a disabled default button also suppresses implicit
form submission), so `submit` is a no-op while `buttonDisabled` holds;
`complete` is the mutation settling. -/
def uiStep (s : AnalysisUIState) (e : UIEvent) :
    AnalysisUIState × Option AnalyzeRequest :=
  match e with
  | UIEvent.submit =>
    if buttonDisabled s then (s, none)
    else
      let r := handleAnalysis s
      (r.1, r.2.1)
  | UIEvent.complete => ({ s with pending := false }, none)
  | UIEvent.selectCompany c => ({ s with selectedCompany := c }, none)
  | UIEvent.setQuery q => ({ s with query := q }, none)

/-- One step of the Analysis form paired with the count of analyze requests
currently in flight: a step that issues a request adds one, a `complete`
event retires one. -/
def uiTraceStep (acc : AnalysisUIState × Nat) (e : UIEvent) : AnalysisUIState × Nat :=
  ((uiStep acc.1 e).1,
   match e with
   | UIEvent.complete => acc.2 - 1
   | _ => if (uiStep acc.1 e).2.isSome then acc.2 + 1 else acc.2)

/-- Running the Analysis form from its initial state over an event sequence,
tracking the in-flight request count. -/
def uiTrace (events : List UIEvent) : AnalysisUIState × Nat :=
  events.foldl uiTraceStep ({ selectedCompany := "", query := "", pending := false }, 0)

/-! ## ContradictionBadge (frontend/src/components/ContradictionBadge.jsx) -/

/-- `getIcon`: switch on `level?.toUpperCase()`; `level = null` gives
`undefined`, which falls to the default branch. -/
def getIcon (level : Option String) : String :=
  match level with
  | none => "❓"
  | some s =>
    let u := jsToUpper s
    if u = "HIGH" then "🚨"
    else if u = "MEDIUM" then "⚠️"
    else if u = "LOW" then "🟡"
    else if u = "NONE" then "✅"
    else "❓"

/-- `getBadgeClass`: switch on `level?.toUpperCase()` with default
`badge badge-gray`. -/
def getBadgeClass (level : Option String) : String :=
  match level with
  | none => "badge badge-gray"
  | some s =>
    let u := jsToUpper s
    if u = "HIGH" then "badge badge-high"
    else if u = "MEDIUM" then "badge badge-medium"
    else if u = "LOW" then "badge badge-low"
    else if u = "NONE" then "badge badge-none"
    else "badge badge-gray"

/-- `Math.round` on an exact rational: round half up. -/
def jsRound (x : ℚ) : ℤ := Int.floor (x + 1 / 2)

/-- What the ContradictionBadge component renders: the class of the span, the
icon, the level text, and the optional confidence percentage. -/
structure BadgeView where
  badgeClass : String
  icon : String
  text : String
  confidencePct : Option ℤ
  deriving Repr, DecidableEq

/-- The ContradictionBadge component.  The text is
`level?.toUpperCase() || 'UNKNOWN'` (JS falsy: `undefined` or the empty
string); the percentage is guarded by `confidence && ...`, so the JS-falsy
values `null` and `0` render no percentage.  `confidence` defaults to null. -/
def ContradictionBadge (level : Option String) (confidence : Option ℚ) : BadgeView :=
  { badgeClass := getBadgeClass level
    icon := getIcon level
    text :=
      match level with
      | none => "UNKNOWN"
      | some s => if jsToUpper s = "" then "UNKNOWN" else jsToUpper s
    confidencePct :=
      match confidence with
      | none => none
      | some c => if c = 0 then none else some (jsRound (c * 100)) }

/-- The level strings the badge switch recognizes. -/
def recognizedLevels : List String := ["HIGH", "MEDIUM", "LOW", "NONE"]

/-! ## ContradictionAnalyzer and ReasoningGateway

The backend analyzer is not among the provided sources, so this part is
modelled from the design document (sections 4.2 and 4.3). -/

/-- Modelled from the spec: the ordinal contradiction severity
`enum{NONE,LOW,MEDIUM,HIGH}` of section 3. -/
inductive ContradictionLevel where
  | NONE
  | LOW
  | MEDIUM
  | HIGH
  deriving Repr, DecidableEq

/-- Modelled from the spec: the `AnalysisResult` record of section 3, with
`confidence_score` as an exact rational in `[0,1]`. -/
structure AnalysisResult where
  company : String
  query : Option String
  contradiction_level : ContradictionLevel
  confidence_score : ℚ
  key_contradictions : List String
  analysis_text : String
  created_at : Nat
  deriving Repr, DecidableEq

/-- Modelled from the spec: the outcome of the primary external reasoning
call, with the failure classes of section 4.2 (timeout, malformed response,
schema-validation failure, capability unconfigured). -/
inductive GatewayOutcome where
  | ok (r : AnalysisResult)
  | timeout
  | malformed
  | schemaInvalid
  | unconfigured
  deriving Repr, DecidableEq

/-- Whether a primary-call outcome is one of the failure classes. -/
def isFailure (o : GatewayOutcome) : Bool :=
  match o with
  | GatewayOutcome.ok _ => false
  | _ => true

/-- Modelled from the spec: the strict response-schema validation the gateway
applies to the structured primary response (confidence within `[0,1]`). -/
def schemaValid (r : AnalysisResult) : Bool :=
  decide (0 ≤ r.confidence_score) && decide (r.confidence_score ≤ 1)

/-- Substring test: `text` contains `kw` as a contiguous substring. -/
def containsKw (text kw : String) : Bool :=
  (text.splitOn kw).length > 1

/-- Modelled from the spec: the fixed lexicon of negative-action keywords of
section 4.2. -/
def negativeKeywords : List String := ["violation", "fine", "lawsuit", "dumping"]

/-- Modelled from the spec: the fixed lexicon of commitment keywords of
section 4.2. -/
def commitmentKeywords : List String := ["pledge", "commit", "sustainable"]

/-- Modelled from the spec: the HIGH-weight negative keywords (the section 8
example requires `dumping` to force HIGH at count 1). -/
def highWeightKeywords : List String := ["dumping"]

/-- Modelled from the spec: contradiction level from the flagged count and
the HIGH-weight flag (count 0 gives NONE, 1 gives LOW, 2 or 3 give MEDIUM,
4 or more, or any HIGH-weight keyword, give HIGH). -/
def fallbackLevel (count : Nat) (hasHigh : Bool) : ContradictionLevel :=
  if hasHigh then ContradictionLevel.HIGH
  else if count = 0 then ContradictionLevel.NONE
  else if count = 1 then ContradictionLevel.LOW
  else if count ≤ 3 then ContradictionLevel.MEDIUM
  else ContradictionLevel.HIGH

/-- Modelled from the spec: the heuristic confidence, growing with the
flagged count but capped at three fifths, below what the primary path can
report. -/
def fallbackConfidence (count : Nat) : ℚ :=
  min ((count : ℚ) / 5) (3 / 5)

/-- Modelled from the spec: the deterministic fallback scorer of section
4.2.  An article is flagged when its content contains a negative-action
keyword and some passage of the company contains a commitment keyword
(plain co-occurrence). -/
def fallbackResult (company : String) (query : Option String)
    (passages articles : List String) (now : Nat) : AnalysisResult :=
  let flagged := articles.filter (fun a =>
    negativeKeywords.any (fun k => containsKw a k) &&
    commitmentKeywords.any (fun k => passages.any (fun p => containsKw p k)))
  let count := flagged.length
  let hasHigh := flagged.any (fun a => highWeightKeywords.any (fun k => containsKw a k))
  { company := company
    query := query
    contradiction_level := fallbackLevel count hasHigh
    confidence_score := fallbackConfidence count
    key_contradictions := flagged
    analysis_text := "Heuristic keyword fallback analysis."
    created_at := now }

/-- Modelled from the spec: `ReasoningGateway.assess`.  A validated primary
response is returned as-is; every failure class, including a response that
fails schema validation, is absorbed by the deterministic fallback scorer. -/
def assess (company : String) (query : Option String)
    (passages articles : List String) (outcome : GatewayOutcome)
    (now : Nat) : AnalysisResult :=
  match outcome with
  | GatewayOutcome.ok r =>
    if schemaValid r then r else fallbackResult company query passages articles now
  | _ => fallbackResult company query passages articles now

/-- Modelled from the spec: `ContradictionAnalyzer.analyze` of section 4.3.
With zero passages and zero articles it returns the explanatory
NONE-with-zero-confidence result instead of raising; otherwise it invokes
the gateway on the retrieved context. -/
def analyze (company : String) (query : Option String)
    (passages articles : List String) (outcome : GatewayOutcome)
    (now : Nat) : AnalysisResult :=
  if passages.isEmpty && articles.isEmpty then
    { company := company
      query := query
      contradiction_level := ContradictionLevel.NONE
      confidence_score := 0
      key_contradictions := []
      analysis_text := "No documents or news articles available to analyze."
      created_at := now }
  else
    assess company query passages articles outcome now

/-- Well-formedness of an `AnalysisResult`: the confidence score lies in the
unit interval. -/
def wellFormed (r : AnalysisResult) : Prop :=
  0 ≤ r.confidence_score ∧ r.confidence_score ≤ 1

instance (r : AnalysisResult) : Decidable (wellFormed r) := by
  unfold wellFormed
  infer_instance

/-- A sample alert payload carrying the server-assigned id 1, as the wire
contract of the design document has alert payloads do. -/
def alertPayloadA : WsMessage :=
  { id := some 1, type := "alert", level := "HIGH", message := "Alert one",
    headline := "", company := "" }

/-- A second sample alert payload, carrying the distinct server id 2. -/
def alertPayloadB : WsMessage :=
  { id := some 2, type := "alert", level := "HIGH", message := "Alert two",
    headline := "", company := "" }

/-! ## Helper lemmas -/

/-- Truncating the tail to 49 below a cons does not change the first 50
elements. -/
theorem take50_append_cons_take49 (A : List Alert) (x : Alert) (l : List Alert) :
    (A ++ x :: l.take 49).take 50 = (A ++ x :: l).take 50 := by
  rw [List.take_append_eq_append_take, List.take_append_eq_append_take]
  congr 1
  rcases n : 50 - A.length with _ | j
  · simp
  · have hj : j ≤ 49 := by omega
    simp [List.take_succ_cons, List.take_take, Nat.min_eq_left hj]

/-- Folding `alertsPush` over a nonempty event list from any starting list
yields the 50 most recent generated alerts, newest first. -/
theorem alertsPush_foldl (events : List (Nat × WsMessage)) (prev : List Alert)
    (h : events ≠ []) :
    events.foldl (fun p e => alertsPush e.1 e.2 p) prev
      = ((events.map (fun e => mkAlert e.1 e.2)).reverse ++ prev).take 50 := by
  induction events generalizing prev with
  | nil => exact absurd rfl h
  | cons e es ih =>
    by_cases hes : es = []
    · subst hes
      simp [alertsPush, List.take_succ_cons]
    · rw [List.foldl_cons, ih _ hes]
      simp only [List.map_cons, List.reverse_cons, List.append_assoc,
        List.singleton_append, alertsPush]
      exact take50_append_cons_take49 _ _ _

/-- Nothing surviving `removeAlert i` carries id `i`. -/
theorem removeAlert_id_ne (i : Nat) (l : List Alert) :
    ∀ a ∈ removeAlert i l, a.id ≠ i := by
  intro a ha
  have := List.of_mem_filter ha
  simpa using this

/-- The fallback confidence is nonnegative. -/
theorem fallbackConfidence_nonneg (c : Nat) : 0 ≤ fallbackConfidence c := by
  unfold fallbackConfidence
  apply le_min
  · positivity
  · norm_num

/-- The fallback confidence never exceeds one. -/
theorem fallbackConfidence_le_one (c : Nat) : fallbackConfidence c ≤ 1 := by
  unfold fallbackConfidence
  calc min ((c : ℚ) / 5) (3 / 5) ≤ 3 / 5 := min_le_right _ _
  _ ≤ 1 := by norm_num

/-- The fallback scorer always produces a well-formed result. -/
theorem fallbackResult_wellFormed (company : String) (query : Option String)
    (passages articles : List String) (now : Nat) :
    wellFormed (fallbackResult company query passages articles now) := by
  unfold wellFormed fallbackResult
  exact ⟨fallbackConfidence_nonneg _, fallbackConfidence_le_one _⟩

/-- The gateway always produces a well-formed result. -/
theorem assess_wellFormed (company : String) (query : Option String)
    (passages articles : List String) (outcome : GatewayOutcome) (now : Nat) :
    wellFormed (assess company query passages articles outcome now) := by
  cases outcome with
  | ok r =>
    by_cases h : schemaValid r = true
    · have h2 := h
      unfold schemaValid at h2
      simp only [Bool.and_eq_true, decide_eq_true_eq] at h2
      simpa [assess, h] using h2
    · simp only [assess, h, if_false, Bool.false_eq_true]
      exact fallbackResult_wellFormed _ _ _ _ _
  | timeout => exact fallbackResult_wellFormed _ _ _ _ _
  | malformed => exact fallbackResult_wellFormed _ _ _ _ _
  | schemaInvalid => exact fallbackResult_wellFormed _ _ _ _ _
  | unconfigured => exact fallbackResult_wellFormed _ _ _ _ _

/-! ## Claims -/

/-- C1.  The client alert list is a bounded buffer of capacity 50: after any
sequence of received alert events starting from the empty initial list, the
alerts list equals the 50 most recently generated alerts in most-recent-first
order (so the newest alert is first and, once full, each new alert evicts
the oldest entry), and its length never exceeds 50. -/
theorem spec_C1_alert_buffer (events : List (Nat × WsMessage)) :
    alertsAfter events = ((events.map (fun e => mkAlert e.1 e.2)).reverse).take 50 ∧
    (alertsAfter events).length ≤ 50 := by
  have h : alertsAfter events
      = ((events.map (fun e => mkAlert e.1 e.2)).reverse).take 50 := by
    cases hev : events with
    | nil => simp [alertsAfter]
    | cons e es =>
      have := alertsPush_foldl (e :: es) [] (by simp)
      simpa [alertsAfter] using this
  refine ⟨h, ?_⟩
  rw [h]
  exact List.length_take_le 50 _

/-- C2 counterexample.  The reconnection delay does not grow with consecutive
failed attempts: after zero and after one failed attempt the scheduled delay
is the same 3000 ms, so there is no exponential backoff. -/
theorem spec_C2_counterexample :
    reconnectDelayMs 0 = 3000 ∧ reconnectDelayMs 1 = 3000 ∧
    ¬ reconnectDelayMs 0 < reconnectDelayMs 1 := by
  refine ⟨rfl, rfl, by decide⟩

/-- C2 amended.  After a transport-level connection close the client
schedules a reconnection attempt via `setTimeout` with a fixed constant
3000 ms delay, identical for every consecutive failed attempt. -/
theorem spec_C2_fixed_delay (n : Nat) : reconnectDelayMs n = 3000 := rfl

/-- C3.  `analyze` is total and always returns a well-formed
`AnalysisResult`; every failure class of the primary reasoning call is
absorbed by the deterministic fallback scorer whenever any context exists;
and with zero passages and zero articles it returns contradiction level
NONE with confidence score 0 instead of raising. -/
theorem spec_C3_analyze_total (company : String) (query : Option String)
    (passages articles : List String) (outcome : GatewayOutcome) (now : Nat) :
    wellFormed (analyze company query passages articles outcome now) ∧
    (passages = [] → articles = [] →
      (analyze company query passages articles outcome now).contradiction_level
          = ContradictionLevel.NONE ∧
      (analyze company query passages articles outcome now).confidence_score = 0) ∧
    (isFailure outcome = true → (passages ≠ [] ∨ articles ≠ []) →
      analyze company query passages articles outcome now
        = fallbackResult company query passages articles now) := by
  refine ⟨?_, ?_, ?_⟩
  · unfold analyze
    split
    · exact ⟨le_refl 0, by norm_num⟩
    · exact assess_wellFormed _ _ _ _ _ _
  · intro hp ha
    subst hp; subst ha
    simp [analyze]
  · intro hf hne
    have hcond : ¬ (passages.isEmpty && articles.isEmpty) = true := by
      rcases hne with h | h <;> cases passages <;> cases articles <;> simp_all
    unfold analyze
    rw [if_neg hcond]
    cases outcome with
    | ok r => simp [isFailure] at hf
    | timeout => rfl
    | malformed => rfl
    | schemaInvalid => rfl
    | unconfigured => rfl

/-- C3 witness: with no passages and no articles the analyzer yields the
NONE result with zero confidence, and a gateway timeout with nonempty
context is absorbed by the fallback scorer. -/
theorem spec_C3_witness :
    ((analyze "TechCorp" none [] [] GatewayOutcome.timeout 0).contradiction_level
        = ContradictionLevel.NONE ∧
     (analyze "TechCorp" none [] [] GatewayOutcome.timeout 0).confidence_score = 0) ∧
    analyze "TechCorp" none ["We pledge zero toxic discharge"] [] GatewayOutcome.timeout 0
      = fallbackResult "TechCorp" none ["We pledge zero toxic discharge"] [] 0 :=
  ⟨(spec_C3_analyze_total "TechCorp" none [] [] GatewayOutcome.timeout 0).2.1 rfl rfl,
   (spec_C3_analyze_total "TechCorp" none ["We pledge zero toxic discharge"] []
      GatewayOutcome.timeout 0).2.2 rfl (Or.inl (by simp))⟩

/-- The in-flight count tracked by `uiTraceStep` stays locked to the
`pending` flag. -/
theorem uiTraceStep_invariant (acc : AnalysisUIState × Nat) (e : UIEvent)
    (h : acc.2 = if acc.1.pending then 1 else 0) :
    (uiTraceStep acc e).2 = if (uiTraceStep acc e).1.pending then 1 else 0 := by
  obtain ⟨s, n⟩ := acc
  cases e with
  | submit =>
    by_cases hd : buttonDisabled s = true
    · simp [uiTraceStep, uiStep, hd, h]
    · have hp : s.pending = false := by
        unfold buttonDisabled at hd
        simp at hd
        exact hd.2
      have hc : ¬ s.selectedCompany = "" := by
        unfold buttonDisabled at hd
        simp at hd
        exact hd.1
      simp_all [uiTraceStep, uiStep, hd, handleAnalysis, hc]
  | complete =>
    simp only [uiTraceStep, uiStep] at *
    cases hp : s.pending <;> simp_all
  | selectCompany c => simp [uiTraceStep, uiStep, h]
  | setQuery q => simp [uiTraceStep, uiStep, h]

/-- The invariant propagates through any event sequence. -/
theorem uiTrace_foldl_invariant (events : List UIEvent) :
    ∀ acc : AnalysisUIState × Nat, acc.2 = (if acc.1.pending then 1 else 0) →
      (events.foldl uiTraceStep acc).2
        = if (events.foldl uiTraceStep acc).1.pending then 1 else 0 := by
  induction events with
  | nil => intro acc h; simpa using h
  | cons e es ih =>
    intro acc h
    rw [List.foldl_cons]
    exact ih _ (uiTraceStep_invariant acc e h)

/-- C4.  At most one analyze request is in flight from the client: while the
mutation is pending the Run Analysis button is disabled and a form submit
issues no request, and along every event sequence of the Analysis form the
number of in-flight analyze requests never exceeds one. -/
theorem spec_C4_mutual_exclusion :
    (∀ s : AnalysisUIState, s.pending = true → buttonDisabled s = true) ∧
    (∀ s : AnalysisUIState, s.pending = true → (uiStep s UIEvent.submit).2 = none) ∧
    (∀ events : List UIEvent, (uiTrace events).2 ≤ 1) := by
  refine ⟨?_, ?_, ?_⟩
  · intro s hp
    simp [buttonDisabled, hp]
  · intro s hp
    have hd : buttonDisabled s = true := by simp [buttonDisabled, hp]
    simp [uiStep, hd]
  · intro events
    have h := uiTrace_foldl_invariant events
      ({ selectedCompany := "", query := "", pending := false }, 0) (by simp)
    unfold uiTrace
    rw [h]
    split <;> omega

/-- C4 witness: a submit while the mutation is pending issues no request,
and a double submit after selecting a company keeps at most one request in
flight. -/
theorem spec_C4_witness :
    (uiStep { selectedCompany := "TechCorp", query := "", pending := true }
        UIEvent.submit).2 = none ∧
    (uiTrace [UIEvent.selectCompany "TechCorp", UIEvent.submit, UIEvent.submit]).2 ≤ 1 :=
  ⟨spec_C4_mutual_exclusion.2.1
      { selectedCompany := "TechCorp", query := "", pending := true } rfl,
   spec_C4_mutual_exclusion.2.2
      [UIEvent.selectCompany "TechCorp", UIEvent.submit, UIEvent.submit]⟩

/-- C5.  The message handler dispatches exactly on the type discriminator:
a state change implies the type was `alert`; `news_update` and
`analysis_complete` leave the state unchanged and emit only their toast;
the alert branch performs the alerts-list push; any other type value only
logs the unknown type and changes no client state. -/
theorem spec_C5_dispatch (now : Nat) (data : WsMessage) (s : ClientState) :
    ((handleWebSocketMessage now data s).1 ≠ s → data.type = "alert") ∧
    (data.type = "news_update" →
      handleWebSocketMessage now data s
        = (s, [Notification.toastInfo ("📰 Breaking: " ++ data.headline)])) ∧
    (data.type = "analysis_complete" →
      handleWebSocketMessage now data s
        = (s, [Notification.toastSuccess ("✅ Analysis complete for " ++ data.company)])) ∧
    (data.type = "alert" →
      (handleWebSocketMessage now data s).1.alerts = alertsPush now data s.alerts) ∧
    (data.type ≠ "alert" → data.type ≠ "news_update" → data.type ≠ "analysis_complete" →
      handleWebSocketMessage now data s = (s, [Notification.logUnknown data.type])) := by
  refine ⟨?_, ?_, ?_, ?_, ?_⟩
  · intro hchanged
    by_contra hna
    apply hchanged
    unfold handleWebSocketMessage
    rw [if_neg hna]
    split
    · simp [handleNewsUpdate]
    · split
      · simp [handleAnalysisComplete]
      · rfl
  · intro h
    have hna : data.type ≠ "alert" := by rw [h]; decide
    simp [handleWebSocketMessage, hna, h, handleNewsUpdate]
  · intro h
    have hna : data.type ≠ "alert" := by rw [h]; decide
    have hnn : data.type ≠ "news_update" := by rw [h]; decide
    simp [handleWebSocketMessage, hna, hnn, h, handleAnalysisComplete]
  · intro h
    simp [handleWebSocketMessage, h, handleAlert]
  · intro h1 h2 h3
    simp [handleWebSocketMessage, h1, h2, h3]

/-- C5 witness: a `news_update` message leaves the client state unchanged
and produces exactly the breaking-news toast. -/
theorem spec_C5_witness :
    handleWebSocketMessage 7
        { id := none, type := "news_update", level := "", message := "",
          headline := "Plant fined", company := "" }
        { socket := some 1, isConnected := true, alerts := [] }
      = ({ socket := some 1, isConnected := true, alerts := [] },
         [Notification.toastInfo ("📰 Breaking: " ++ "Plant fined")]) :=
  (spec_C5_dispatch 7
      { id := none, type := "news_update", level := "", message := "",
        headline := "Plant fined", company := "" }
      { socket := some 1, isConnected := true, alerts := [] }).2.1 rfl

/-- C6.  `handleAnalysis` with an empty company selection emits the error
toast and issues no request, leaving the form state alone; a request is
issued only when a company is selected. -/
theorem spec_C6_empty_company (s : AnalysisUIState) :
    (s.selectedCompany = "" →
      (handleAnalysis s).2.1 = none ∧
      (handleAnalysis s).2.2 = [Notification.toastError "Please select a company"] ∧
      (handleAnalysis s).1 = s) ∧
    ((handleAnalysis s).2.1.isSome = true → s.selectedCompany ≠ "") := by
  constructor
  · intro h
    simp [handleAnalysis, h]
  · intro hsome h
    simp [handleAnalysis, h] at hsome

/-- C6 witness: a submission with no company selected produces the error
toast and no request. -/
theorem spec_C6_witness :
    (handleAnalysis { selectedCompany := "", query := "climate", pending := false }).2.1
        = none ∧
    (handleAnalysis { selectedCompany := "", query := "climate", pending := false }).2.2
        = [Notification.toastError "Please select a company"] ∧
    (handleAnalysis { selectedCompany := "", query := "climate", pending := false }).1
        = { selectedCompany := "", query := "climate", pending := false } :=
  (spec_C6_empty_company
      { selectedCompany := "", query := "climate", pending := false }).1 rfl

/-- C7.  Every analyze request the client issues carries exactly the
selected company name and the whitespace-trimmed query text, and
`apiService.analyzeCompany` posts that payload to the `/analyze` endpoint. -/
theorem spec_C7_request_contract (s : AnalysisUIState)
    (h : s.selectedCompany ≠ "") :
    (handleAnalysis s).2.1
        = some { company := s.selectedCompany, query := jsTrim s.query } ∧
    ∀ r : AnalyzeRequest,
      (analyzeCompany r).url = "/analyze" ∧ (analyzeCompany r).method = "post" ∧
      (analyzeCompany r).body = r := by
  constructor
  · simp [handleAnalysis, h]
  · intro r
    exact ⟨rfl, rfl, rfl⟩

/-- C7 witness: the concrete submission trims the surrounding whitespace of
the query and posts to `/analyze`. -/
theorem spec_C7_witness :
    (handleAnalysis
        { selectedCompany := "TechCorp", query := "  climate pledges  ", pending := false }).2.1
      = some { company := "TechCorp", query := "climate pledges" } ∧
    (analyzeCompany { company := "TechCorp", query := "climate pledges" }).url
      = "/analyze" := by
  have h := spec_C7_request_contract
    { selectedCompany := "TechCorp", query := "  climate pledges  ", pending := false }
    (by decide)
  refine ⟨?_, (h.2 { company := "TechCorp", query := "climate pledges" }).1⟩
  rw [h.1]
  decide

/-- C8 counterexample.  Alert ids are not generated from `Date.now()` when
the payload carries an id: the `...data` spread overrides the `Date.now()`
default, so two alerts received at the same millisecond 7 with server ids 1
and 2 do not share one id, and a single `removeAlert` call on the first id
removes only the first alert, leaving the second in the list. -/
theorem spec_C8_counterexample :
    (mkAlert 7 alertPayloadA).id ≠ (mkAlert 7 alertPayloadB).id ∧
    removeAlert (mkAlert 7 alertPayloadA).id
        (alertsPush 7 alertPayloadB (alertsPush 7 alertPayloadA []))
      = [mkAlert 7 alertPayloadB] := by
  refine ⟨by decide, by decide⟩

/-- C8 amended.  `removeAlert` removes every alert whose id equals the
argument, is idempotent, and leaves a list without that id unchanged.  An
alert id is the `Date.now()` clock value only when the payload carries no
`id` field (the `...data` spread otherwise overrides it); two alerts
received at the same millisecond whose payloads carry no id share that
clock value as id, and a single `removeAlert` call removes both. -/
theorem spec_C8_removeAlert (i now : Nat) (l prev : List Alert)
    (d₁ d₂ : WsMessage) :
    removeAlert i (removeAlert i l) = removeAlert i l ∧
    ((∀ a ∈ l, a.id ≠ i) → removeAlert i l = l) ∧
    (∀ a ∈ removeAlert i l, a.id ≠ i) ∧
    (d₁.id = none → d₂.id = none →
      (mkAlert now d₁).id = now ∧ (mkAlert now d₂).id = now ∧
      mkAlert now d₁ ∉ removeAlert now (alertsPush now d₂ (alertsPush now d₁ prev)) ∧
      mkAlert now d₂ ∉ removeAlert now (alertsPush now d₂ (alertsPush now d₁ prev))) := by
  refine ⟨?_, ?_, removeAlert_id_ne i l, ?_⟩
  · apply List.filter_eq_self.mpr
    intro a ha
    have := removeAlert_id_ne i l a ha
    simpa using this
  · intro h
    apply List.filter_eq_self.mpr
    intro a ha
    simpa using h a ha
  · intro h1 h2
    have e1 : (mkAlert now d₁).id = now := by simp [mkAlert, h1]
    have e2 : (mkAlert now d₂).id = now := by simp [mkAlert, h2]
    refine ⟨e1, e2, ?_, ?_⟩
    · intro hmem
      exact removeAlert_id_ne now _ _ hmem e1
    · intro hmem
      exact removeAlert_id_ne now _ _ hmem e2

/-- C8 witness: removing an absent id leaves a concrete alert list
unchanged, and two same-millisecond alerts whose payloads carry no id are
both removed by one `removeAlert` call on that millisecond value. -/
theorem spec_C8_witness :
    removeAlert 5
        [{ id := 1, type := "alert", level := "HIGH", message := "m", timestamp := 1 }]
      = [{ id := 1, type := "alert", level := "HIGH", message := "m", timestamp := 1 }] ∧
    mkAlert 9
        { id := none, type := "alert", level := "HIGH", message := "m1",
          headline := "", company := "" }
      ∉ removeAlert 9
          (alertsPush 9
            { id := none, type := "alert", level := "HIGH", message := "m2",
              headline := "", company := "" }
            (alertsPush 9
              { id := none, type := "alert", level := "HIGH", message := "m1",
                headline := "", company := "" } [])) :=
  ⟨(spec_C8_removeAlert 5 9
      [{ id := 1, type := "alert", level := "HIGH", message := "m", timestamp := 1 }] []
      { id := none, type := "", level := "", message := "", headline := "", company := "" }
      { id := none, type := "", level := "", message := "", headline := "", company := "" }).2.1
    (by decide),
   ((spec_C8_removeAlert 9 9 []
      []
      { id := none, type := "alert", level := "HIGH", message := "m1",
        headline := "", company := "" }
      { id := none, type := "alert", level := "HIGH", message := "m2",
        headline := "", company := "" }).2.2.2 rfl rfl).2.2.1⟩

/-- C9.  A websocket message whose data fails to parse is caught: the
handler logs the parse error and leaves the alerts list, the connection
flag and the socket reference unchanged, and (being a total function)
propagates no exception. -/
theorem spec_C9_parse_failure (parseFn : String → Option WsMessage) (now : Nat)
    (raw : String) (s : ClientState) (h : parseFn raw = none) :
    (onmessage parseFn now raw s).1.alerts = s.alerts ∧
    (onmessage parseFn now raw s).1.isConnected = s.isConnected ∧
    (onmessage parseFn now raw s).1.socket = s.socket ∧
    (onmessage parseFn now raw s).2 = [Notification.logParseError] := by
  simp [onmessage, h]

/-- C9 witness: a concrete unparseable frame leaves a concrete state
untouched and logs the failure. -/
theorem spec_C9_witness :
    (onmessage (fun _ => none) 3 "not json"
        { socket := some 1, isConnected := true, alerts := [] }).1.alerts
      = ([] : List Alert) ∧
    (onmessage (fun _ => none) 3 "not json"
        { socket := some 1, isConnected := true, alerts := [] }).2
      = [Notification.logParseError] := by
  have h := spec_C9_parse_failure (fun _ => none) 3 "not json"
    { socket := some 1, isConnected := true, alerts := [] } rfl
  exact ⟨h.1, h.2.2.2⟩

/-- C10 counterexample.  For the unrecognized non-null level `bogus` the
badge renders the text `BOGUS` — the uppercased level, not `UNKNOWN` — with
the gray badge class, refuting the claim that unrecognized levels render
the text `UNKNOWN`. -/
theorem spec_C10_counterexample :
    (ContradictionBadge (some "bogus") none).text = "BOGUS" ∧
    (ContradictionBadge (some "bogus") none).text ≠ "UNKNOWN" ∧
    (ContradictionBadge (some "bogus") none).badgeClass = "badge badge-gray" := by
  refine ⟨by decide, by decide, by decide⟩

/-- C10 amended.  The badge shows a confidence percentage only when
`confidence` is neither null nor 0; rendering is total: a null level gives
the text `UNKNOWN` with the gray badge class, while an unrecognized
non-null level gives the gray badge class with the uppercased level string
as text (`UNKNOWN` only when that string is empty). -/
theorem spec_C10_badge (level : Option String) (confidence : Option ℚ) :
    ((confidence = none ∨ confidence = some 0) →
      (ContradictionBadge level confidence).confidencePct = none) ∧
    (∀ c : ℚ, confidence = some c → ¬ c = 0 →
      (ContradictionBadge level confidence).confidencePct = some (jsRound (c * 100))) ∧
    (level = none →
      (ContradictionBadge level confidence).text = "UNKNOWN" ∧
      (ContradictionBadge level confidence).badgeClass = "badge badge-gray") ∧
    (∀ s : String, level = some s → jsToUpper s ∉ recognizedLevels →
      (ContradictionBadge level confidence).badgeClass = "badge badge-gray" ∧
      (ContradictionBadge level confidence).text
        = (if jsToUpper s = "" then "UNKNOWN" else jsToUpper s)) := by
  refine ⟨?_, ?_, ?_, ?_⟩
  · rintro (h | h) <;> simp [ContradictionBadge, h]
  · intro c hc hne
    simp [ContradictionBadge, hc, hne]
  · intro h
    simp [ContradictionBadge, getBadgeClass, h]
  · intro s hs hmem
    subst hs
    simp only [recognizedLevels, List.mem_cons, List.not_mem_nil, or_false,
      not_or] at hmem
    obtain ⟨h1, h2, h3, h4⟩ := hmem
    constructor
    · simp [ContradictionBadge, getBadgeClass, h1, h2, h3, h4]
    · rfl

/-- C10 witness: with confidence 0 no percentage is rendered, and the
unrecognized level `bogus` gets the gray badge class. -/
theorem spec_C10_witness :
    (ContradictionBadge (some "bogus") (some 0)).confidencePct = none ∧
    (ContradictionBadge (some "bogus") (some 0)).badgeClass = "badge badge-gray" :=
  ⟨(spec_C10_badge (some "bogus") (some 0)).1 (Or.inr rfl),
   ((spec_C10_badge (some "bogus") (some 0)).2.2.2 "bogus" rfl (by decide)).1⟩
